import Mathlib

/-!
Verification development for the radar-backend acquisition-and-normalization
pipeline (server/scraper/radarScraper.js, server/processor/radarProcessor.js).

Shallow embedding conventions:
* JavaScript numbers are modelled by `Radar.JsNum`: either `NaN`, one of the
  two infinities, or a finite rational value.  Array entries that may be
  `null`/`undefined` are modelled as `Option JsNum`; out-of-range array access
  yields `none` (JS `undefined`).
* `Math.random()` is modelled as a stream `ℕ → ℚ` of values in `[0, 1)`,
  consumed left to right exactly in the order the source calls it; every
  function that draws randomness takes the stream plus the index of the next
  unconsumed draw and returns the updated index.
* `Math.cos` / `Math.sin` / `Math.sqrt` / `Math.PI` are modelled as oracle
  parameters bundled in `Radar.JsMath`; the only facts ever assumed about them
  are the bounds in `Radar.validM` (`|cos| ≤ 1`, `|sin| ≤ 1`).
* Network calls are modelled by passing each fetch strategy's outcome as an
  `Except String (List RadarPoint)` parameter (`Except.error` = the strategy
  threw).
-/

namespace Radar

/-- Model of a JavaScript number: NaN, +Infinity, -Infinity, or a finite
value (represented as a rational). -/
inductive JsNum where
  | nan
  | posInf
  | negInf
  | val (q : ℚ)
deriving DecidableEq, Repr, Inhabited

/-- JavaScript `<` on numbers: any comparison with NaN is false. -/
def JsNum.lt : JsNum → JsNum → Bool
  | .nan, _ => false
  | _, .nan => false
  | .negInf, .negInf => false
  | .negInf, _ => true
  | _, .negInf => false
  | .posInf, _ => false
  | .val _, .posInf => true
  | .val a, .val b => decide (a < b)

/-- JavaScript `isNaN` on an (already numeric) value. -/
def JsNum.isNaN : JsNum → Bool
  | .nan => true
  | _ => false

/-- JavaScript multiplication of a number by a positive rational constant. -/
def JsNum.mulC (c : ℚ) : JsNum → JsNum
  | .nan => .nan
  | .posInf => .posInf
  | .negInf => .negInf
  | .val q => .val (q * c)

/-- JavaScript `Math.min` (binary): NaN absorbs, infinities compare normally. -/
def JsNum.jmin : JsNum → JsNum → JsNum
  | .nan, _ => .nan
  | _, .nan => .nan
  | .negInf, _ => .negInf
  | _, .negInf => .negInf
  | .posInf, b => b
  | a, .posInf => a
  | .val a, .val b => .val (min a b)

/-- JavaScript `Math.max` (binary): NaN absorbs, infinities compare normally. -/
def JsNum.jmax : JsNum → JsNum → JsNum
  | .nan, _ => .nan
  | _, .nan => .nan
  | .posInf, _ => .posInf
  | _, .posInf => .posInf
  | .negInf, b => b
  | a, .negInf => a
  | .val a, .val b => .val (max a b)

/-- `Math.floor` of a nonnegative JS number used as an array/loop count
(all call sites apply it to `Math.random() * c`, which is finite and ≥ 0). -/
def jsFloorNat (q : ℚ) : ℕ := (⌊q⌋).toNat

/-- Does string `hay` contain `pat` as a substring (JS `String.includes`),
on character lists. -/
def hasSub : List Char → List Char → Bool
  | _, [] => true
  | [], _ :: _ => false
  | c :: rest, p :: ps => (List.isPrefixOf (p :: ps) (c :: rest)) || hasSub rest (p :: ps)

/-- JS `s.includes(pat)`. -/
def strContains (s pat : String) : Bool := hasSub s.toList pat.toList

/-- One point of the scraper's output schema.  JS objects built by the
different paths carry different optional fields (`source`/`field` only on
decoded-grid points, `station` only on station-derived and mock points);
the wall-clock `timestamp` string is not modelled. -/
structure RadarPoint where
  lon : Option JsNum
  lat : Option JsNum
  reflectivity : JsNum
  precipitation : String
  color : String
  source : Option String
  field : Option String
  station : Option String
deriving DecidableEq, Repr, Inhabited

/-- Oracles for the mathematical primitives the source uses
(`Math.random`, `Math.cos`, `Math.sin`, `Math.sqrt`, `Math.PI`). -/
structure JsMath where
  rand : ℕ → ℚ
  cos : ℚ → ℚ
  sin : ℚ → ℚ
  sqrt : ℚ → ℚ
  pi : ℚ

/-- The facts guaranteed by the JS runtime about the oracles:
`Math.random()` lands in `[0,1)` and cosine/sine are bounded by 1. -/
def validM (M : JsMath) : Prop :=
  (∀ n, 0 ≤ M.rand n ∧ M.rand n < 1) ∧ (∀ x, |M.cos x| ≤ 1) ∧ (∀ x, |M.sin x| ≤ 1)

namespace RadarScraper

/-- radarScraper.js `classifyPrecipitation`: the scraper's coarse
classifier with breakpoints 20 / 35 / 45 dBZ and no `none` bucket. -/
def classifyPrecipitation (reflectivity : JsNum) : String :=
  if reflectivity.lt (.val 20) then "light"
  else if reflectivity.lt (.val 35) then "moderate"
  else if reflectivity.lt (.val 45) then "heavy"
  else "extreme"

/-- radarScraper.js `getColorForReflectivity`: colors keyed off the same
20 / 35 / 45 breakpoints. -/
def getColorForReflectivity (reflectivity : JsNum) : String :=
  if reflectivity.lt (.val 20) then "#00ff00"
  else if reflectivity.lt (.val 35) then "#ffff00"
  else if reflectivity.lt (.val 45) then "#ff8000"
  else "#ff0000"


end RadarScraper

namespace RadarProcessor

/-- radarProcessor.js `reflectivityToPrecipitation`: the processor's
5-bucket classifier.  Its inputs are the finite reflectivities computed by
`createMockRadarData`, so it is embedded over `ℚ`. -/
def reflectivityToPrecipitation (reflectivity : ℚ) : String :=
  if reflectivity < 10 then "none"
  else if reflectivity < 20 then "light"
  else if reflectivity < 30 then "moderate"
  else if reflectivity < 40 then "heavy"
  else "extreme"

/-- radarProcessor.js `getColorForReflectivity`: the 6-color scale keyed
off the same 10/20/30/40 breakpoints plus an extra 50 dBZ breakpoint. -/
def getColorForReflectivity (reflectivity : ℚ) : String :=
  if reflectivity < 10 then "#ffffff"
  else if reflectivity < 20 then "#00ff00"
  else if reflectivity < 30 then "#ffff00"
  else if reflectivity < 40 then "#ff8000"
  else if reflectivity < 50 then "#ff0000"
  else "#800080"

/-- Index of a precipitation category in the none < light < moderate <
heavy < extreme order (instrumentation for the monotonicity property). -/
def precipIndex (c : String) : ℕ :=
  if c = "none" then 0
  else if c = "light" then 1
  else if c = "moderate" then 2
  else if c = "heavy" then 3
  else 4

end RadarProcessor

namespace RadarScraper

/-- One named field of a grib2json payload: parallel `values`, `latitudes`
and `longitudes` arrays.  Entries are `Option JsNum` (`none` = JSON
`null`); indexing past the end of an array yields `none` (JS `undefined`). -/
structure FieldData where
  values : List (Option JsNum)
  latitudes : List (Option JsNum)
  longitudes : List (Option JsNum)
deriving DecidableEq, Repr

/-- Body of one iteration of the sampling loop in
`convertGRIB2ToRadarPoints`: returns `none` when the value at index `i` is
null/undefined, NaN, or negative, otherwise the emitted point. -/
def mkSample (fieldData : FieldData) (fieldName : String) (i : ℕ) : Option RadarPoint :=
  let value := (fieldData.values.getD i none)
  let la := (fieldData.latitudes.getD i none)
  let lo := (fieldData.longitudes.getD i none)
  match value with
  | none => none
  | some v =>
    if v.isNaN || v.lt (.val 0) then none
    else
      let reflectivity :=
        if strContains fieldName "BREF" || strContains fieldName "REFL" then v
        else JsNum.jmax (.val 0) (JsNum.jmin (.val 70) (v.mulC 10))
      some { lon := lo, lat := la, reflectivity := reflectivity,
             precipitation := classifyPrecipitation reflectivity,
             color := getColorForReflectivity reflectivity,
             source := some "MRMS_GRIB2", field := some fieldName, station := none }

/-- The strided `for (let i = 0; i < values.length; i += sampleRate)` loop
of `convertGRIB2ToRadarPoints`, starting at index `i`. -/
def convertLoop (fieldData : FieldData) (fieldName : String) (sr : ℕ) (hsr : 0 < sr)
    (i : ℕ) : List RadarPoint :=
  if _h : i < fieldData.values.length then
    match mkSample fieldData fieldName i with
    | none => convertLoop fieldData fieldName sr hsr (i + sr)
    | some p => p :: convertLoop fieldData fieldName sr hsr (i + sr)
  else []
termination_by fieldData.values.length - i
decreasing_by all_goals omega

/-- radarScraper.js `convertGRIB2ToRadarPoints`: thin to
`sampleRate = max(1, floor(values.length / 1000))`, drop invalid values,
pass dBZ fields through, scale-and-clamp everything else. -/
def convertGRIB2ToRadarPoints (fieldData : FieldData) (fieldName : String) : List RadarPoint :=
  convertLoop fieldData fieldName (max 1 (fieldData.values.length / 1000))
    (Nat.lt_of_lt_of_le Nat.one_pos (Nat.le_max_left _ _)) 0

/-- The indices visited by a stride-`s` loop over `[i, n)`. -/
def stridedFrom (n s i : ℕ) : List ℕ :=
  (List.range ((n - i + s - 1) / s)).map (fun j => i + j * s)

/-- The indices visited by a stride-`s` loop over `[0, n)`:
every `s`-th index, in increasing order. -/
def stridedIndices (n s : ℕ) : List ℕ :=
  (List.range ((n + s - 1) / s)).map (fun j => j * s)

/-- One NEXRAD station of radarScraper.js `getRadarStations`. -/
structure Station where
  id : String
  name : String
  lat : ℚ
  lon : ℚ
deriving DecidableEq, Repr

/-- radarScraper.js `getRadarStations`: the fixed list of ten stations. -/
def getRadarStations : List Station :=
  [⟨"KTLX", "Oklahoma City", 35.3, -97.3⟩,
   ⟨"KDFX", "Laughlin AFB", 29.3, -100.3⟩,
   ⟨"KEWX", "San Antonio", 29.7, -98.0⟩,
   ⟨"KFWS", "Fort Worth", 32.6, -97.3⟩,
   ⟨"KGRK", "Fort Hood", 31.2, -97.1⟩,
   ⟨"KSHV", "Shreveport", 32.4, -93.8⟩,
   ⟨"KLZK", "Little Rock", 34.8, -92.3⟩,
   ⟨"KPOE", "Fort Polk", 31.2, -93.2⟩,
   ⟨"KLCH", "Lake Charles", 30.1, -93.2⟩,
   ⟨"KLIX", "New Orleans", 30.3, -89.8⟩]

/-- radarScraper.js `generateThunderstormCell`: 5-12 points on a ring of
radius < 1.5 degrees around the station; reflectivity capped to [20,50] in
the stored field but classified/colored from the raw value. -/
def generateThunderstormCell (M : JsMath) (k : ℕ) (st : Station) : List RadarPoint × ℕ :=
  let numPoints := jsFloorNat (M.rand k * 8) + 5
  let intensity := 30 + M.rand (k + 1) * 20
  let pts := (List.range numPoints).map (fun (i : ℕ) =>
    let angle := (M.pi * 2 * (i : ℚ)) / (numPoints : ℚ)
    let radius := M.rand (k + 2 + 2 * i) * 1.5
    let la := st.lat + radius * M.cos angle
    let lo := st.lon + radius * M.sin angle
    let reflectivity := intensity + (M.rand (k + 3 + 2 * i) - 0.5) * 10
    { lon := some (.val lo), lat := some (.val la),
      reflectivity := .val (max 20 (min 50 reflectivity)),
      precipitation := classifyPrecipitation (.val reflectivity),
      color := getColorForReflectivity (.val reflectivity),
      source := none, field := none, station := some st.id })
  (pts, k + 2 + 2 * numPoints)

/-- radarScraper.js `generateWeatherFront`: 10-24 points on a line of
length < 5 degrees from the station; reflectivity capped to [20,40] in the
stored field but classified/colored from the raw value. -/
def generateWeatherFront (M : JsMath) (k : ℕ) (st : Station) : List RadarPoint × ℕ :=
  let numPoints := jsFloorNat (M.rand k * 15) + 10
  let direction := M.rand (k + 1) * M.pi * 2
  let len := 2 + M.rand (k + 2) * 3
  let pts := (List.range numPoints).map (fun (i : ℕ) =>
    let distance := ((i : ℚ) / (numPoints : ℚ)) * len
    let la := st.lat + distance * M.cos direction
    let lo := st.lon + distance * M.sin direction
    let reflectivity := 25 + M.rand (k + 3 + i) * 15
    { lon := some (.val lo), lat := some (.val la),
      reflectivity := .val (max 20 (min 40 reflectivity)),
      precipitation := classifyPrecipitation (.val reflectivity),
      color := getColorForReflectivity (.val reflectivity),
      source := none, field := none, station := some st.id })
  (pts, k + 3 + numPoints)

/-- radarScraper.js `generateScatteredShowers`: 8-19 points scattered
within ±2 degrees of the station; reflectivity capped to [10,35] in the
stored field but classified/colored from the raw value. -/
def generateScatteredShowers (M : JsMath) (k : ℕ) (st : Station) : List RadarPoint × ℕ :=
  let numPoints := jsFloorNat (M.rand k * 12) + 8
  let pts := (List.range numPoints).map (fun (i : ℕ) =>
    let la := st.lat + (M.rand (k + 1 + 3 * i) - 0.5) * 4
    let lo := st.lon + (M.rand (k + 2 + 3 * i) - 0.5) * 4
    let reflectivity := 15 + M.rand (k + 3 + 3 * i) * 20
    { lon := some (.val lo), lat := some (.val la),
      reflectivity := .val (max 10 (min 35 reflectivity)),
      precipitation := classifyPrecipitation (.val reflectivity),
      color := getColorForReflectivity (.val reflectivity),
      source := none, field := none, station := some st.id })
  (pts, k + 1 + 3 * numPoints)

/-- The station-by-station body of radarScraper.js `getEnhancedMockData`:
pick a pattern per station by a fresh random draw and append its points. -/
def mockLoop (M : JsMath) : List Station → ℕ → List RadarPoint × ℕ
  | [], k => ([], k)
  | st :: rest, k =>
    let systemType := M.rand k
    let r :=
      if systemType < 0.3 then generateThunderstormCell M (k + 1) st
      else if systemType < 0.6 then generateWeatherFront M (k + 1) st
      else generateScatteredShowers M (k + 1) st
    let rst := mockLoop M rest r.2
    (r.1 ++ rst.1, rst.2)

/-- radarScraper.js `getEnhancedMockData`: the per-station synthetic
fallback over all ten stations. -/
def getEnhancedMockData (M : JsMath) (k : ℕ) : List RadarPoint × ℕ :=
  mockLoop M getRadarStations k

/-- radarScraper.js `processMRMSProducts`: the viewer-API payload handler,
which currently always yields the empty list (triggering fallback). -/
def processMRMSProducts (products : List String) : List RadarPoint :=
  []

/-- The period-by-period body of radarScraper.js
`extractPrecipitationData`; each forecast period is modelled by its
`probabilityOfPrecipitation?.value` (`none` = missing). -/
def extractLoop (M : JsMath) (st : Station) : List (Option ℚ) → ℕ → List RadarPoint × ℕ
  | [], k => ([], k)
  | pv :: rest, k =>
    match pv with
    | some v =>
      if 0 < v then
        let numPoints := jsFloorNat (M.rand k * 10) + 5
        let pts := (List.range numPoints).map (fun (i : ℕ) =>
          let angle := (M.pi * 2 * (i : ℚ)) / (numPoints : ℚ)
          let radius := M.rand (k + 1 + 2 * i) * 2
          let la := st.lat + radius * M.cos angle
          let lo := st.lon + radius * M.sin angle
          let reflectivity := v + M.rand (k + 2 + 2 * i) * 20
          { lon := some (.val lo), lat := some (.val la),
            reflectivity := .val (min reflectivity 50),
            precipitation := classifyPrecipitation (.val reflectivity),
            color := getColorForReflectivity (.val reflectivity),
            source := none, field := none, station := some st.id })
        let rst := extractLoop M st rest (k + 1 + 2 * numPoints)
        (pts ++ rst.1, rst.2)
      else extractLoop M st rest k
    | none => extractLoop M st rest k

/-- radarScraper.js `extractPrecipitationData`: for the first three
forecast periods with positive precipitation probability, synthesize 5-14
points on a ring of radius < 2 degrees around the station. -/
def extractPrecipitationData (M : JsMath) (k : ℕ) (periods : List (Option ℚ))
    (st : Station) : List RadarPoint × ℕ :=
  extractLoop M st (periods.take 3) k

/-- Result of one `getLatestRadarData` run, instrumented with which
strategies past the primary were invoked. -/
structure PipelineResult where
  points : List RadarPoint
  usedViewer : Bool
  usedNWS : Bool
  usedSynthetic : Bool
deriving DecidableEq, Repr

/-- Did a strategy throw or return an empty list? (the condition under
which radarScraper.js `getLatestRadarData` advances to the next one). -/
def failedOrEmpty (m : Except String (List RadarPoint)) : Bool :=
  match m with
  | .ok l => l.isEmpty
  | .error _ => true

/-- Tail of `getLatestRadarData` from the tertiary (NWS per-station)
strategy on: a non-empty result returns, anything else falls back to
`getEnhancedMockData`. -/
def pipelineFromNWS (m3 : Except String (List RadarPoint)) (M : JsMath) (k : ℕ) :
    PipelineResult :=
  match m3 with
  | .ok l =>
    if 0 < l.length then ⟨l, true, true, false⟩
    else ⟨(getEnhancedMockData M k).1, true, true, true⟩
  | .error _ => ⟨(getEnhancedMockData M k).1, true, true, true⟩

/-- Tail of `getLatestRadarData` from the secondary (MRMS viewer)
strategy on. -/
def pipelineFromViewer (m2 m3 : Except String (List RadarPoint)) (M : JsMath) (k : ℕ) :
    PipelineResult :=
  match m2 with
  | .ok l =>
    if 0 < l.length then ⟨l, true, false, false⟩
    else pipelineFromNWS m3 M k
  | .error _ => pipelineFromNWS m3 M k

/-- radarScraper.js `getLatestRadarData`: try the MRMS NCEP grid
directory, then the MRMS viewer API, then the NWS per-station strategy,
each advanced past only on throw or empty result; fall back to
`getEnhancedMockData`.  Each network strategy's outcome is a parameter
(`Except.error` = it threw). -/
def getLatestRadarData (m1 m2 m3 : Except String (List RadarPoint)) (M : JsMath)
    (k : ℕ) : PipelineResult :=
  match m1 with
  | .ok l =>
    if 0 < l.length then ⟨l, false, false, false⟩
    else pipelineFromViewer m2 m3 M k
  | .error _ => pipelineFromViewer m2 m3 M k

/-- Is a point inside the continental bounding box
(24 ≤ lat ≤ 49, -125 ≤ lon ≤ -66), with finite coordinates? -/
def pointInBox (p : RadarPoint) : Bool :=
  match p.lat, p.lon with
  | some (.val la), some (.val lo) =>
    decide (24 ≤ la ∧ la ≤ 49 ∧ -125 ≤ lo ∧ lo ≤ -66)
  | _, _ => false

/-- Are a station's coordinates within the span of the fixed list in
`getRadarStations` (lat in [29.3, 35.3], lon in [-100.3, -89.8])? -/
def stationInSpan (st : Station) : Prop :=
  29.3 ≤ st.lat ∧ st.lat ≤ 35.3 ∧ -100.3 ≤ st.lon ∧ st.lon ≤ -89.8

end RadarScraper

/-- Idealized decimal rounding of JS `parseFloat(q.toFixed(d))`:
round to `d` decimal places, ties away from zero. -/
def jsToFixed (d : ℕ) (q : ℚ) : ℚ :=
  if 0 ≤ q then ((⌊q * 10 ^ d + 1/2⌋ : ℤ) : ℚ) / 10 ^ d
  else -(((⌊-q * 10 ^ d + 1/2⌋ : ℤ) : ℚ) / 10 ^ d)

namespace RadarProcessor

/-- One weather system of radarProcessor.js `generateWeatherSystems`. -/
structure WeatherSystem where
  centerLat : ℚ
  centerLon : ℚ
  intensity : ℚ
  size : ℚ
deriving DecidableEq, Repr

/-- radarProcessor.js `generateWeatherSystems`: 3-6 systems with random
center, intensity in [20,50) and size in [3,11). -/
def generateWeatherSystems (M : JsMath) (k : ℕ) : List WeatherSystem × ℕ :=
  let numSystems := jsFloorNat (M.rand k * 4) + 3
  let systems := (List.range numSystems).map (fun (j : ℕ) =>
    { centerLat := 25 + M.rand (k + 1 + 4 * j) * 20
      centerLon := -120 + M.rand (k + 2 + 4 * j) * 50
      intensity := 20 + M.rand (k + 3 + 4 * j) * 30
      size := 3 + M.rand (k + 4 + 4 * j) * 8 : WeatherSystem })
  (systems, k + 1 + 4 * numSystems)

/-- One point of the processor's mock data: coordinates and reflectivity
are stored rounded (`toFixed`), the category is computed from the raw
reflectivity. -/
structure MockPoint where
  lat : ℚ
  lon : ℚ
  reflectivity : ℚ
  precipitation : String
deriving DecidableEq, Repr

/-- The inner `for (let i = 0; i < numPoints; i++)` loop of
radarProcessor.js `createMockRadarData` for one weather system:
per point pick one of three spatial patterns, add jitter, derive
reflectivity from distance to the system center, and keep the point only
if reflectivity > 10 and it lies inside the continental bounds. -/
def mockSystemLoop (M : JsMath) (sys : WeatherSystem) (numPoints : ℕ) :
    ℕ → ℕ → ℕ → List MockPoint × ℕ
  | 0, _, k => ([], k)
  | rem + 1, i, k =>
    let patternType := M.rand k
    let base :=
      if patternType < 0.3 then
        let angle := (M.pi * 2 * (i : ℚ)) / (numPoints : ℚ)
        let radius := M.rand (k + 1) * sys.size * 2
        (sys.centerLat + radius * M.cos angle, sys.centerLon + radius * M.sin angle, k + 2)
      else if patternType < 0.6 then
        (sys.centerLat + (M.rand (k + 1) - 0.5) * sys.size * 4,
         sys.centerLon + (M.rand (k + 2) - 0.5) * sys.size * 4, k + 3)
      else
        let direction := M.rand (k + 1) * M.pi * 2
        let distance := M.rand (k + 2) * sys.size * 3
        (sys.centerLat + distance * M.cos direction,
         sys.centerLon + distance * M.sin direction, k + 3)
    let k1 := base.2.2
    let randLat := base.1 + (M.rand k1 - 0.5) * 5
    let randLon := base.2.1 + (M.rand (k1 + 1) - 0.5) * 5
    let distanceFromCenter :=
      M.sqrt ((randLat - sys.centerLat) ^ 2 + (randLon - sys.centerLon) ^ 2)
    let baseReflectivity := sys.intensity * (1 - distanceFromCenter / sys.size)
    let reflectivity := max 5 (baseReflectivity + (M.rand (k1 + 2) - 0.5) * 10)
    let rst := mockSystemLoop M sys numPoints rem (i + 1) (k1 + 3)
    if 10 < reflectivity ∧ 24 ≤ randLat ∧ randLat ≤ 49 ∧
        -125 ≤ randLon ∧ randLon ≤ -66 then
      (⟨jsToFixed 3 randLat, jsToFixed 3 randLon, jsToFixed 1 reflectivity,
        reflectivityToPrecipitation reflectivity⟩ :: rst.1, rst.2)
    else (rst.1, rst.2)

/-- The `weatherSystems.forEach` loop of `createMockRadarData`:
`floor(size * 50)` candidate points per system. -/
def mockSystemsLoop (M : JsMath) : List WeatherSystem → ℕ → List MockPoint × ℕ
  | [], k => ([], k)
  | sys :: rest, k =>
    let nP := jsFloorNat (sys.size * 50)
    let r := mockSystemLoop M sys nP nP 0 k
    let rst := mockSystemsLoop M rest r.2
    (r.1 ++ rst.1, rst.2)

/-- One GeoJSON feature of the processor's mock FeatureCollection. -/
structure MockFeature where
  lon : ℚ
  lat : ℚ
  reflectivity : ℚ
  precipitation : String
  color : String
deriving DecidableEq, Repr

/-- radarProcessor.js `createMockRadarData`: generates the weather
systems and their points and maps them to features, but the trailing
`metadata.bounds` object literal reads the identifiers `minLat`,
`maxLat`, `minLon`, `maxLon`, which are not defined anywhere in the file,
so evaluating the return expression always throws a `ReferenceError`
after the points have been computed. -/
def createMockRadarData (M : JsMath) (k : ℕ) : Except String (List MockFeature) :=
  let ws := generateWeatherSystems M k
  let pts := mockSystemsLoop M ws.1 ws.2
  let _features := pts.1.map (fun p =>
    (⟨p.lon, p.lat, p.reflectivity, p.precipitation,
      getColorForReflectivity p.reflectivity⟩ : MockFeature))
  Except.error "ReferenceError: minLat is not defined"

end RadarProcessor

/-!
Concrete fixtures used by closed (counterexample / witness) theorems.
-/

/-- A fixed oracle bundle: the random stream is constantly 0, cosine and
sine are constantly 1, square root constantly 0, pi is 3.  It satisfies
`validM`. -/
def M0 : JsMath :=
  { rand := fun _ => 0, cos := fun _ => 1, sin := fun _ => 1,
    sqrt := fun _ => 0, pi := 3 }

namespace RadarScraper

/-- The decoded field of the end-to-end scenario: values
[5, 15, 25, -1, NaN] with matching length-5 coordinate arrays. -/
def fdScenario : FieldData :=
  { values := [some (.val 5), some (.val 15), some (.val 25),
               some (.val (-1)), some .nan],
    latitudes := [some (.val 30), some (.val 31), some (.val 32),
                  some (.val 33), some (.val 34)],
    longitudes := [some (.val (-100)), some (.val (-101)), some (.val (-102)),
                   some (.val (-103)), some (.val (-104))] }

/-- A one-sample field whose coordinates lie outside the continental
bounding box. -/
def fdOutOfBox : FieldData :=
  { values := [some (.val 30)], latitudes := [some (.val 60)],
    longitudes := [some (.val 10)] }

/-- The point the decoder emits for `fdOutOfBox`. -/
def ptOutOfBox : RadarPoint :=
  { lon := some (.val 10), lat := some (.val 60), reflectivity := .val 30,
    precipitation := "moderate", color := "#ffff00",
    source := some "MRMS_GRIB2", field := some "BREF_1HR_MAX", station := none }

/-- A field carrying a +Infinity value and a NaN latitude, both of which
JS lets through the decoder's validity test. -/
def fdNonFinite : FieldData :=
  { values := [some .posInf, some (.val 30)],
    latitudes := [some (.val 30), some .nan],
    longitudes := [some (.val (-100)), some (.val (-100))] }

/-- The first point the decoder emits for `fdScenario`. -/
def samplePointGrib : RadarPoint :=
  { lon := some (.val (-100)), lat := some (.val 30), reflectivity := .val 5,
    precipitation := "light", color := "#00ff00",
    source := some "MRMS_GRIB2", field := some "BREF_1HR_MAX", station := none }

/-- An arbitrary well-formed decoded point, used as a primary-strategy
payload in pipeline evaluations. -/
def p1 : RadarPoint :=
  { lon := some (.val (-97)), lat := some (.val 35), reflectivity := .val 30,
    precipitation := "moderate", color := "#ffff00",
    source := some "MRMS_GRIB2", field := some "BREF_1HR_MAX", station := none }

/-- The first station of `getRadarStations`. -/
def stationKTLX : Station := { id := "KTLX", name := "Oklahoma City", lat := 35.3, lon := -97.3 }

end RadarScraper

namespace RadarScraper

theorem ceil_div_step {m s : ℕ} (hs : 0 < s) (hm : 1 ≤ m) :
    (m + s - 1) / s = ((m - s) + s - 1) / s + 1 := by
  rcases Nat.lt_or_ge m s with h | h
  · have h1 : m + s - 1 = (m - 1) + s := by omega
    have h2 : m - s = 0 := by omega
    rw [h1, Nat.add_div_right _ hs, h2, Nat.div_eq_of_lt (by omega),
      Nat.div_eq_of_lt (by omega)]
  · have h1 : (m - s) + s - 1 = m - 1 := by omega
    have h2 : m + s - 1 = (m - 1) + s := by omega
    rw [h1, h2, Nat.add_div_right _ hs]

theorem stridedFrom_stop {n s i : ℕ} (hs : 0 < s) (h : ¬ i < n) :
    stridedFrom n s i = [] := by
  unfold stridedFrom
  have : n - i = 0 := by omega
  rw [this, Nat.zero_add, Nat.div_eq_of_lt (by omega)]
  rfl

theorem stridedFrom_step {n s i : ℕ} (hs : 0 < s) (h : i < n) :
    stridedFrom n s i = i :: stridedFrom n s (i + s) := by
  unfold stridedFrom
  have hm : 1 ≤ n - i := by omega
  have hsub : n - (i + s) = (n - i) - s := by omega
  rw [hsub, ceil_div_step hs hm, List.range_succ_eq_map, List.map_cons, List.map_map]
  have : i + 0 * s = i := by omega
  rw [this]
  congr 1
  apply List.map_congr_left
  intro a _
  simp [Nat.succ_mul, Nat.succ_eq_add_one]
  ring

theorem convertLoop_eq_filterMap (fieldData : FieldData) (fieldName : String)
    (sr : ℕ) (hsr : 0 < sr) (i : ℕ) :
    convertLoop fieldData fieldName sr hsr i =
      (stridedFrom fieldData.values.length sr i).filterMap (mkSample fieldData fieldName) := by
  have main : ∀ m i, fieldData.values.length - i ≤ m →
      convertLoop fieldData fieldName sr hsr i =
        (stridedFrom fieldData.values.length sr i).filterMap (mkSample fieldData fieldName) := by
    intro m
    induction m with
    | zero =>
      intro i hi
      have h : ¬ i < fieldData.values.length := by omega
      rw [convertLoop, dif_neg h, stridedFrom_stop hsr h]
      rfl
    | succ m ih =>
      intro i hi
      by_cases h : i < fieldData.values.length
      · rw [convertLoop, dif_pos h, stridedFrom_step hsr h, List.filterMap_cons]
        have ihs := ih (i + sr) (by omega)
        cases hmk : mkSample fieldData fieldName i <;> simp [hmk, ihs]
      · rw [convertLoop, dif_neg h, stridedFrom_stop hsr h]
        rfl
  exact main _ i le_rfl

theorem convertGRIB2_eq_filterMap (fieldData : FieldData) (fieldName : String) :
    convertGRIB2ToRadarPoints fieldData fieldName =
      (stridedIndices fieldData.values.length
          (max 1 (fieldData.values.length / 1000))).filterMap
        (mkSample fieldData fieldName) := by
  unfold convertGRIB2ToRadarPoints
  rw [convertLoop_eq_filterMap]
  congr 1
  unfold stridedFrom stridedIndices
  rw [Nat.sub_zero]
  apply List.map_congr_left
  intro a _
  omega

end RadarScraper

namespace RadarScraper

theorem pointInBox_val (la lo : ℚ) (r : JsNum) (pr co : String)
    (so fi stt : Option String) :
    pointInBox { lon := some (.val lo), lat := some (.val la), reflectivity := r,
                 precipitation := pr, color := co, source := so, field := fi,
                 station := stt } =
      decide (24 ≤ la ∧ la ≤ 49 ∧ -125 ≤ lo ∧ lo ≤ -66) := rfl

theorem absMulLe {r c b : ℚ} (h0 : 0 ≤ r) (hr : r ≤ b) (hc : |c| ≤ 1) :
    |r * c| ≤ b := by
  rw [abs_mul]
  calc |r| * |c| ≤ |r| * 1 := mul_le_mul_of_nonneg_left hc (abs_nonneg r)
    _ = |r| := mul_one _
    _ = r := abs_of_nonneg h0
    _ ≤ b := hr

theorem coordsInBox {st : Station} (hst : stationInSpan st) {dla dlo : ℚ}
    (h1 : |dla| ≤ 5) (h2 : |dlo| ≤ 5) :
    24 ≤ st.lat + dla ∧ st.lat + dla ≤ 49 ∧
      -125 ≤ st.lon + dlo ∧ st.lon + dlo ≤ -66 := by
  obtain ⟨a1, a2, a3, a4⟩ := hst
  rw [abs_le] at h1 h2
  refine ⟨by linarith [h1.1], by linarith [h1.2], by linarith [h2.1], by linarith [h2.2]⟩

theorem generateThunderstormCell_inBox (M : JsMath) (k : ℕ) (st : Station)
    (hM : validM M) (hst : stationInSpan st) :
    ∀ p ∈ (generateThunderstormCell M k st).1, pointInBox p = true := by
  intro p hp
  simp only [generateThunderstormCell, List.mem_map, List.mem_range] at hp
  obtain ⟨i, _hi, rfl⟩ := hp
  rw [pointInBox_val, decide_eq_true_eq]
  obtain ⟨hrand, hcos, hsin⟩ := hM
  have h0 : 0 ≤ M.rand (k + 2 + 2 * i) * 1.5 :=
    mul_nonneg (hrand (k + 2 + 2 * i)).1 (by norm_num)
  have hub : M.rand (k + 2 + 2 * i) * 1.5 ≤ 5 := by
    have := (hrand (k + 2 + 2 * i)).2
    linarith
  exact coordsInBox hst (absMulLe h0 hub (hcos _)) (absMulLe h0 hub (hsin _))

theorem generateWeatherFront_inBox (M : JsMath) (k : ℕ) (st : Station)
    (hM : validM M) (hst : stationInSpan st) :
    ∀ p ∈ (generateWeatherFront M k st).1, pointInBox p = true := by
  intro p hp
  simp only [generateWeatherFront, List.mem_map, List.mem_range] at hp
  obtain ⟨i, hi, rfl⟩ := hp
  rw [pointInBox_val, decide_eq_true_eq]
  obtain ⟨hrand, hcos, hsin⟩ := hM
  have hlen0 : 0 ≤ 2 + M.rand (k + 2) * 3 := by have := (hrand (k + 2)).1; linarith
  have hlen5 : 2 + M.rand (k + 2) * 3 ≤ 5 := by have := (hrand (k + 2)).2; linarith
  have hcast : (0:ℚ) ≤ ((jsFloorNat (M.rand k * 15) + 10 : ℕ) : ℚ) := by positivity
  have hdiv0 : 0 ≤ (i : ℚ) / ((jsFloorNat (M.rand k * 15) + 10 : ℕ) : ℚ) := by positivity
  have hdiv1 : (i : ℚ) / ((jsFloorNat (M.rand k * 15) + 10 : ℕ) : ℚ) ≤ 1 := by
    apply div_le_one_of_le _ hcast
    exact_mod_cast Nat.le_of_lt hi
  have h0 : 0 ≤ (i : ℚ) / ((jsFloorNat (M.rand k * 15) + 10 : ℕ) : ℚ) *
      (2 + M.rand (k + 2) * 3) := mul_nonneg hdiv0 hlen0
  have hub : (i : ℚ) / ((jsFloorNat (M.rand k * 15) + 10 : ℕ) : ℚ) *
      (2 + M.rand (k + 2) * 3) ≤ 5 :=
    calc (i : ℚ) / ((jsFloorNat (M.rand k * 15) + 10 : ℕ) : ℚ) *
        (2 + M.rand (k + 2) * 3)
        ≤ 1 * (2 + M.rand (k + 2) * 3) := mul_le_mul_of_nonneg_right hdiv1 hlen0
      _ = 2 + M.rand (k + 2) * 3 := one_mul _
      _ ≤ 5 := hlen5
  exact coordsInBox hst (absMulLe h0 hub (hcos _)) (absMulLe h0 hub (hsin _))

theorem generateScatteredShowers_inBox (M : JsMath) (k : ℕ) (st : Station)
    (hM : validM M) (hst : stationInSpan st) :
    ∀ p ∈ (generateScatteredShowers M k st).1, pointInBox p = true := by
  intro p hp
  simp only [generateScatteredShowers, List.mem_map, List.mem_range] at hp
  obtain ⟨i, _hi, rfl⟩ := hp
  rw [pointInBox_val, decide_eq_true_eq]
  obtain ⟨hrand, _, _⟩ := hM
  have h1 := hrand (k + 1 + 3 * i)
  have h2 := hrand (k + 2 + 3 * i)
  have hla : |(M.rand (k + 1 + 3 * i) - 0.5) * 4| ≤ 5 := by
    rw [abs_le]; constructor <;> nlinarith [h1.1, h1.2]
  have hlo : |(M.rand (k + 2 + 3 * i) - 0.5) * 4| ≤ 5 := by
    rw [abs_le]; constructor <;> nlinarith [h2.1, h2.2]
  exact coordsInBox hst hla hlo

theorem extractLoop_inBox (M : JsMath) (st : Station) (hM : validM M)
    (hst : stationInSpan st) :
    ∀ periods k, ∀ p ∈ (extractLoop M st periods k).1, pointInBox p = true := by
  intro periods
  induction periods with
  | nil => intro k p hp; simp [extractLoop] at hp
  | cons pv rest ih =>
    intro k p hp
    rcases pv with _ | v
    · simp only [extractLoop] at hp
      exact ih k p hp
    · simp only [extractLoop] at hp
      split at hp
      · simp only [List.mem_append, List.mem_map, List.mem_range] at hp
        rcases hp with ⟨i, _hi, rfl⟩ | hp
        · rw [pointInBox_val, decide_eq_true_eq]
          obtain ⟨hrand, hcos, hsin⟩ := hM
          have h0 : 0 ≤ M.rand (k + 1 + 2 * i) * 2 :=
            mul_nonneg (hrand (k + 1 + 2 * i)).1 (by norm_num)
          have hub : M.rand (k + 1 + 2 * i) * 2 ≤ 5 := by
            have := (hrand (k + 1 + 2 * i)).2
            linarith
          exact coordsInBox hst (absMulLe h0 hub (hcos _)) (absMulLe h0 hub (hsin _))
        · exact ih _ p hp
      · exact ih k p hp

theorem mockLoop_inBox (M : JsMath) (hM : validM M) :
    ∀ sts : List Station, (∀ st ∈ sts, stationInSpan st) →
      ∀ k, ∀ p ∈ (mockLoop M sts k).1, pointInBox p = true := by
  intro sts
  induction sts with
  | nil => intro _ k p hp; simp [mockLoop] at hp
  | cons st rest ih =>
    intro hsts k p hp
    have hst : stationInSpan st := hsts st (List.mem_cons_self st rest)
    have hrest : ∀ s ∈ rest, stationInSpan s := fun s hs => hsts s (List.mem_cons_of_mem _ hs)
    simp only [mockLoop, List.mem_append] at hp
    rcases hp with hp | hp
    · split at hp
      · exact generateThunderstormCell_inBox M (k + 1) st hM hst p hp
      · split at hp
        · exact generateWeatherFront_inBox M (k + 1) st hM hst p hp
        · exact generateScatteredShowers_inBox M (k + 1) st hM hst p hp
    · split at hp <;> [skip; skip] <;> exact ih hrest _ p hp

theorem stations_in_span : ∀ st ∈ getRadarStations, stationInSpan st := by
  intro st hst
  simp only [getRadarStations, List.mem_cons, List.not_mem_nil, or_false] at hst
  rcases hst with rfl | rfl | rfl | rfl | rfl | rfl | rfl | rfl | rfl | rfl <;>
    norm_num [stationInSpan]

end RadarScraper

theorem validM_M0 : validM M0 := by
  refine ⟨fun n => ⟨le_refl 0, ?_⟩, fun x => ?_, fun x => ?_⟩ <;> simp [M0]

namespace RadarProcessor

theorem precipIndex_eq (r : ℚ) :
    precipIndex (reflectivityToPrecipitation r) =
      if r < 10 then 0 else if r < 20 then 1 else if r < 30 then 2
      else if r < 40 then 3 else 4 := by
  unfold reflectivityToPrecipitation precipIndex
  split_ifs <;> simp_all

/-- C1: the processor's pair (`reflectivityToPrecipitation`,
`getColorForReflectivity`) realizes exactly the published breakpoint
table with inclusive lower / exclusive upper bounds — <10 none/#ffffff,
[10,20) light/#00ff00, [20,30) moderate/#ffff00, [30,40) heavy/#ff8000,
[40,50) extreme/#ff0000, ≥50 extreme/#800080 — so the cases cover ℚ with
no gaps or overlaps, and the precipitation category index is
non-decreasing in the reflectivity. -/
theorem classifier5_breakpoint_table (r s : ℚ) (hrs : r ≤ s) :
    (r < 10 → reflectivityToPrecipitation r = "none" ∧
      getColorForReflectivity r = "#ffffff") ∧
    (10 ≤ r → r < 20 → reflectivityToPrecipitation r = "light" ∧
      getColorForReflectivity r = "#00ff00") ∧
    (20 ≤ r → r < 30 → reflectivityToPrecipitation r = "moderate" ∧
      getColorForReflectivity r = "#ffff00") ∧
    (30 ≤ r → r < 40 → reflectivityToPrecipitation r = "heavy" ∧
      getColorForReflectivity r = "#ff8000") ∧
    (40 ≤ r → r < 50 → reflectivityToPrecipitation r = "extreme" ∧
      getColorForReflectivity r = "#ff0000") ∧
    (50 ≤ r → reflectivityToPrecipitation r = "extreme" ∧
      getColorForReflectivity r = "#800080") ∧
    precipIndex (reflectivityToPrecipitation r) ≤
      precipIndex (reflectivityToPrecipitation s) := by
  refine ⟨?_, ?_, ?_, ?_, ?_, ?_, ?_⟩
  · intro h
    unfold reflectivityToPrecipitation getColorForReflectivity
    split_ifs <;> first | exact ⟨rfl, rfl⟩ | linarith
  · intro h1 h2
    unfold reflectivityToPrecipitation getColorForReflectivity
    split_ifs <;> first | exact ⟨rfl, rfl⟩ | linarith
  · intro h1 h2
    unfold reflectivityToPrecipitation getColorForReflectivity
    split_ifs <;> first | exact ⟨rfl, rfl⟩ | linarith
  · intro h1 h2
    unfold reflectivityToPrecipitation getColorForReflectivity
    split_ifs <;> first | exact ⟨rfl, rfl⟩ | linarith
  · intro h1 h2
    unfold reflectivityToPrecipitation getColorForReflectivity
    split_ifs <;> first | exact ⟨rfl, rfl⟩ | linarith
  · intro h
    unfold reflectivityToPrecipitation getColorForReflectivity
    split_ifs <;> first | exact ⟨rfl, rfl⟩ | linarith
  · rw [precipIndex_eq, precipIndex_eq]
    split_ifs <;> first | omega | (exfalso; linarith)

/-- Witness for C1 at reflectivities 15 ≤ 25. -/
theorem classifier5_breakpoint_table_witness :
    reflectivityToPrecipitation 15 = "light" ∧
    getColorForReflectivity 15 = "#00ff00" ∧
    precipIndex (reflectivityToPrecipitation 15) ≤
      precipIndex (reflectivityToPrecipitation 25) := by
  have h := classifier5_breakpoint_table 15 25 (by norm_num)
  exact ⟨(h.2.1 (by norm_num) (by norm_num)).1,
         (h.2.1 (by norm_num) (by norm_num)).2, h.2.2.2.2.2.2⟩

/-- C6: the processor-mode synthetic generator `createMockRadarData`
never terminates normally — for every oracle bundle and random-stream
position it throws (the `metadata.bounds` object literal reads the
undefined identifiers `minLat`/`maxLat`/`minLon`/`maxLon`), contradicting
the contract that `generate()` never fails. -/
theorem createMockRadarData_always_throws (M : JsMath) (k : ℕ) :
    createMockRadarData M k =
      Except.error "ReferenceError: minLat is not defined" := rfl

end RadarProcessor

namespace RadarScraper

/-- C9: the scraper's coarse classifier pair never produces the `none`
category or the `#ffffff` color: for every JS number (NaN and infinities
included) `classifyPrecipitation` lands in {light, moderate, heavy,
extreme}, `getColorForReflectivity` lands in {#00ff00, #ffff00, #ff8000,
#ff0000}, and the two agree bucket-wise on the shared 20/35/45
breakpoints — so every point built by any scraper path is labeled as
precipitating. -/
theorem scraper3_classifier_no_none (r : JsNum) :
    (classifyPrecipitation r = "light" ∨ classifyPrecipitation r = "moderate" ∨
     classifyPrecipitation r = "heavy" ∨ classifyPrecipitation r = "extreme") ∧
    (getColorForReflectivity r = "#00ff00" ∨ getColorForReflectivity r = "#ffff00" ∨
     getColorForReflectivity r = "#ff8000" ∨ getColorForReflectivity r = "#ff0000") ∧
    classifyPrecipitation r ≠ "none" ∧ getColorForReflectivity r ≠ "#ffffff" ∧
    (classifyPrecipitation r = "light" ↔ getColorForReflectivity r = "#00ff00") ∧
    (classifyPrecipitation r = "moderate" ↔ getColorForReflectivity r = "#ffff00") ∧
    (classifyPrecipitation r = "heavy" ↔ getColorForReflectivity r = "#ff8000") ∧
    (classifyPrecipitation r = "extreme" ↔ getColorForReflectivity r = "#ff0000") := by
  unfold classifyPrecipitation getColorForReflectivity
  split_ifs <;> decide

/-- C2 counterexample: on the scenario field (values [5, 15, 25, -1,
NaN], name BREF_1HR_MAX) the decoder keeps exactly the first three
samples but classifies reflectivity 5 as light/#00ff00 (the scraper's
classifier has no `none` bucket), not none/#ffffff as claimed. -/
theorem scenario_field_counterexample :
    (convertGRIB2ToRadarPoints fdScenario "BREF_1HR_MAX").map
        (fun p => (p.reflectivity, p.precipitation, p.color)) =
      [(JsNum.val 5, "light", "#00ff00"), (JsNum.val 15, "light", "#00ff00"),
       (JsNum.val 25, "moderate", "#ffff00")] := by
  rw [convertGRIB2_eq_filterMap]
  decide

/-- C2 (amended): for the scenario field with any length-5 coordinate
arrays, the decoder drops indices 3 and 4 (negative and NaN values),
keeps exactly 3 points in order, and classifies 5 as light/#00ff00, 15 as
light/#00ff00 and 25 as moderate/#ffff00. -/
theorem scenario_field_amended (la0 la1 la2 la3 la4 lo0 lo1 lo2 lo3 lo4 : Option JsNum) :
    (convertGRIB2ToRadarPoints
        { values := [some (.val 5), some (.val 15), some (.val 25),
                     some (.val (-1)), some .nan],
          latitudes := [la0, la1, la2, la3, la4],
          longitudes := [lo0, lo1, lo2, lo3, lo4] } "BREF_1HR_MAX").map
        (fun p => (p.lat, p.lon, p.reflectivity, p.precipitation, p.color)) =
      [(la0, lo0, JsNum.val 5, "light", "#00ff00"),
       (la1, lo1, JsNum.val 15, "light", "#00ff00"),
       (la2, lo2, JsNum.val 25, "moderate", "#ffff00")] := by
  rw [convertGRIB2_eq_filterMap]
  norm_num [stridedIndices, mkSample, strContains, hasSub, JsNum.isNaN, JsNum.lt,
    classifyPrecipitation, getColorForReflectivity, List.range_succ, List.getD,
    List.filterMap_cons]

/-- C7: for every input field the decoder samples with stride
max(1, floor(N/1000)), emits at most ceil(N/stride) points, and its
output is exactly the in-order filter of the points built at the strided
indices 0, stride, 2·stride, … (a strided subsequence, minus dropped
invalid values). -/
theorem decoder_thinning (fieldData : FieldData) (fieldName : String) :
    (convertGRIB2ToRadarPoints fieldData fieldName).length ≤
      (fieldData.values.length + max 1 (fieldData.values.length / 1000) - 1) /
        max 1 (fieldData.values.length / 1000) ∧
    convertGRIB2ToRadarPoints fieldData fieldName =
      (stridedIndices fieldData.values.length
          (max 1 (fieldData.values.length / 1000))).filterMap
        (mkSample fieldData fieldName) := by
  refine ⟨?_, convertGRIB2_eq_filterMap _ _⟩
  rw [convertGRIB2_eq_filterMap]
  calc (List.filterMap (mkSample fieldData fieldName)
          (stridedIndices fieldData.values.length
            (max 1 (fieldData.values.length / 1000)))).length
      ≤ (stridedIndices fieldData.values.length
          (max 1 (fieldData.values.length / 1000))).length :=
        List.length_filterMap_le _ _
    _ = _ := by unfold stridedIndices; rw [List.length_map, List.length_range]

end RadarScraper


namespace RadarScraper

theorem jsFloorNat_lt_of_lt {q : ℚ} {c : ℕ} (hc : 0 < c) (h : q < (c : ℚ)) :
    jsFloorNat q < c := by
  unfold jsFloorNat
  have h2 : ⌊q⌋ < (c : ℤ) := Int.floor_lt.mpr (by exact_mod_cast h)
  omega

theorem generateThunderstormCell_length (M : JsMath) (k : ℕ) (st : Station)
    (hM : validM M) :
    5 ≤ (generateThunderstormCell M k st).1.length ∧
      (generateThunderstormCell M k st).1.length ≤ 12 := by
  simp only [generateThunderstormCell, List.length_map, List.length_range]
  have h := hM.1 k
  have hlt : jsFloorNat (M.rand k * 8) < 8 :=
    jsFloorNat_lt_of_lt (by norm_num) (by push_cast; nlinarith [h.1, h.2])
  omega

theorem generateWeatherFront_length (M : JsMath) (k : ℕ) (st : Station)
    (hM : validM M) :
    10 ≤ (generateWeatherFront M k st).1.length ∧
      (generateWeatherFront M k st).1.length ≤ 24 := by
  simp only [generateWeatherFront, List.length_map, List.length_range]
  have h := hM.1 k
  have hlt : jsFloorNat (M.rand k * 15) < 15 :=
    jsFloorNat_lt_of_lt (by norm_num) (by push_cast; nlinarith [h.1, h.2])
  omega

theorem generateScatteredShowers_length (M : JsMath) (k : ℕ) (st : Station)
    (hM : validM M) :
    8 ≤ (generateScatteredShowers M k st).1.length ∧
      (generateScatteredShowers M k st).1.length ≤ 19 := by
  simp only [generateScatteredShowers, List.length_map, List.length_range]
  have h := hM.1 k
  have hlt : jsFloorNat (M.rand k * 12) < 12 :=
    jsFloorNat_lt_of_lt (by norm_num) (by push_cast; nlinarith [h.1, h.2])
  omega

theorem mockLoop_length (M : JsMath) (hM : validM M) :
    ∀ sts k, 5 * sts.length ≤ (mockLoop M sts k).1.length ∧
      (mockLoop M sts k).1.length ≤ 24 * sts.length := by
  intro sts
  induction sts with
  | nil => intro k; simp [mockLoop]
  | cons st rest ih =>
    intro k
    simp only [mockLoop, List.length_append, List.length_cons]
    split
    · have hg := generateThunderstormCell_length M (k + 1) st hM
      have hr := ih (generateThunderstormCell M (k + 1) st).2
      constructor <;> omega
    · split
      · have hg := generateWeatherFront_length M (k + 1) st hM
        have hr := ih (generateWeatherFront M (k + 1) st).2
        constructor <;> omega
      · have hg := generateScatteredShowers_length M (k + 1) st hM
        have hr := ih (generateScatteredShowers M (k + 1) st).2
        constructor <;> omega

theorem mockLoop_tags (M : JsMath) :
    ∀ sts k, ∀ p ∈ (mockLoop M sts k).1, p.source = none ∧ p.station ≠ none := by
  intro sts
  induction sts with
  | nil => intro k p hp; simp [mockLoop] at hp
  | cons st rest ih =>
    intro k p hp
    simp only [mockLoop, List.mem_append] at hp
    rcases hp with hp | hp
    · split at hp
      · simp only [generateThunderstormCell, List.mem_map, List.mem_range] at hp
        obtain ⟨i, _, rfl⟩ := hp
        exact ⟨rfl, by simp⟩
      · split at hp
        · simp only [generateWeatherFront, List.mem_map, List.mem_range] at hp
          obtain ⟨i, _, rfl⟩ := hp
          exact ⟨rfl, by simp⟩
        · simp only [generateScatteredShowers, List.mem_map, List.mem_range] at hp
          obtain ⟨i, _, rfl⟩ := hp
          exact ⟨rfl, by simp⟩
    · split at hp <;> exact ih _ p hp

/-- C10: every point produced by the scraper's per-station synthetic
fallback `getEnhancedMockData` (thunderstorm-cell, weather-front and
scattered-showers patterns) lies within latitude [24, 49] and longitude
[-125, -66] even though no explicit bounds filter is applied: the fixed
stations lie in lat [29.3, 35.3] and lon [-100.3, -89.8] and every
pattern's positional offset is below 5 degrees. -/
theorem perStation_synthetic_in_box (M : JsMath) (k : ℕ) (p : RadarPoint)
    (hM : validM M) (hp : p ∈ (getEnhancedMockData M k).1) : pointInBox p = true :=
  mockLoop_inBox M hM getRadarStations stations_in_span k p hp

/-- Witness for C10 at the concrete oracle bundle `M0`. -/
theorem perStation_synthetic_in_box_witness :
    pointInBox ((getEnhancedMockData M0 0).1.head!) = true := by
  have hne : (getEnhancedMockData M0 0).1 ≠ [] := by
    have h := (mockLoop_length M0 validM_M0 getRadarStations 0).1
    intro hnil
    rw [show mockLoop M0 getRadarStations 0 = getEnhancedMockData M0 0 from rfl,
      hnil] at h
    simp [getRadarStations] at h
  exact perStation_synthetic_in_box M0 0 _ validM_M0 (List.head!_mem_self hne)

/-- C3 (amended): every point built by the tertiary (station-derived)
strategy or the per-station synthetic fallback lies inside the
continental bounding box, and the viewer-API strategy returns no points
at all; the decoded-grid strategy, by contrast, applies no geographic
filter (see the counterexample). -/
theorem strategy_points_in_box (M : JsMath) (k : ℕ) (periods : List (Option ℚ))
    (st : Station) (p q : RadarPoint) (products : List String) (hM : validM M)
    (hst : stationInSpan st)
    (hp : p ∈ (extractPrecipitationData M k periods st).1)
    (hq : q ∈ (getEnhancedMockData M k).1) :
    pointInBox p = true ∧ pointInBox q = true ∧ processMRMSProducts products = [] :=
  ⟨extractLoop_inBox M st hM hst (periods.take 3) k p hp,
   mockLoop_inBox M hM getRadarStations stations_in_span k q hq, rfl⟩

/-- Witness for C3 at the concrete oracle bundle `M0`, a single forecast
period with probability 50, and station KTLX. -/
theorem strategy_points_in_box_witness :
    pointInBox ((extractPrecipitationData M0 0 [some 50] stationKTLX).1.head!) = true ∧
    pointInBox ((getEnhancedMockData M0 0).1.head!) = true := by
  have h5 : jsFloorNat (M0.rand 0 * 10) + 5 = 5 := by
    norm_num [M0, jsFloorNat]
  have hne1 : (extractPrecipitationData M0 0 [some 50] stationKTLX).1 ≠ [] := by
    simp only [extractPrecipitationData, List.take, extractLoop, h5,
      if_pos (by norm_num : (0:ℚ) < 50)]
    simp
  have hne2 : (getEnhancedMockData M0 0).1 ≠ [] := by
    have h := (mockLoop_length M0 validM_M0 getRadarStations 0).1
    intro hnil
    rw [show mockLoop M0 getRadarStations 0 = getEnhancedMockData M0 0 from rfl,
      hnil] at h
    simp [getRadarStations] at h
  have h := strategy_points_in_box M0 0 [some 50] stationKTLX _ _ [] validM_M0
    (by norm_num [stationInSpan, stationKTLX]) (List.head!_mem_self hne1)
    (List.head!_mem_self hne2)
  exact ⟨h.1, h.2.1⟩

/-- C3 counterexample: the decoded-grid strategy emits a point at
latitude 60, longitude 10 — far outside the continental box — and the
pipeline returns it unfiltered. -/
theorem bounds_filter_counterexample :
    (getLatestRadarData
        (Except.ok (convertGRIB2ToRadarPoints fdOutOfBox "BREF_1HR_MAX"))
        (Except.error "network") (Except.error "network") M0 0).points.map pointInBox =
      [false] := by
  have h : convertGRIB2ToRadarPoints fdOutOfBox "BREF_1HR_MAX" = [ptOutOfBox] := by
    rw [convertGRIB2_eq_filterMap]; decide
  rw [h]
  decide

/-- C4: a non-empty primary result short-circuits the chain, and each
later strategy is invoked exactly when every earlier one threw or
returned an empty list. -/
theorem pipeline_short_circuit (m1 m2 m3 : Except String (List RadarPoint))
    (M : JsMath) (k : ℕ) :
    ((getLatestRadarData m1 m2 m3 M k).usedViewer = failedOrEmpty m1) ∧
    ((getLatestRadarData m1 m2 m3 M k).usedNWS =
      (failedOrEmpty m1 && failedOrEmpty m2)) ∧
    ((getLatestRadarData m1 m2 m3 M k).usedSynthetic =
      (failedOrEmpty m1 && failedOrEmpty m2 && failedOrEmpty m3)) ∧
    (∀ l, m1 = Except.ok l → l ≠ [] →
      getLatestRadarData m1 m2 m3 M k = ⟨l, false, false, false⟩) := by
  have hNWS : ∀ m M k, (pipelineFromNWS m M k).usedViewer = true ∧
      (pipelineFromNWS m M k).usedNWS = true ∧
      (pipelineFromNWS m M k).usedSynthetic = failedOrEmpty m := by
    intro m M k
    rcases m with e | l
    · simp [pipelineFromNWS, failedOrEmpty]
    · rcases l with _ | ⟨a, t⟩ <;> simp [pipelineFromNWS, failedOrEmpty]
  have hV : ∀ m2 m3 M k, (pipelineFromViewer m2 m3 M k).usedViewer = true ∧
      (pipelineFromViewer m2 m3 M k).usedNWS = failedOrEmpty m2 ∧
      (pipelineFromViewer m2 m3 M k).usedSynthetic =
        (failedOrEmpty m2 && failedOrEmpty m3) := by
    intro m2 m3 M k
    rcases m2 with e | l
    · simpa [pipelineFromViewer, failedOrEmpty] using hNWS m3 M k
    · rcases l with _ | ⟨a, t⟩
      · simpa [pipelineFromViewer, failedOrEmpty] using hNWS m3 M k
      · simp [pipelineFromViewer, failedOrEmpty]
  refine ⟨?_, ?_, ?_, ?_⟩
  · rcases m1 with e | l
    · simpa [getLatestRadarData, failedOrEmpty] using (hV m2 m3 M k).1
    · rcases l with _ | ⟨a, t⟩
      · simpa [getLatestRadarData, failedOrEmpty] using (hV m2 m3 M k).1
      · simp [getLatestRadarData, failedOrEmpty]
  · rcases m1 with e | l
    · simpa [getLatestRadarData, failedOrEmpty] using (hV m2 m3 M k).2.1
    · rcases l with _ | ⟨a, t⟩
      · simpa [getLatestRadarData, failedOrEmpty] using (hV m2 m3 M k).2.1
      · simp [getLatestRadarData, failedOrEmpty]
  · rcases m1 with e | l
    · simpa [getLatestRadarData, failedOrEmpty] using (hV m2 m3 M k).2.2
    · rcases l with _ | ⟨a, t⟩
      · simpa [getLatestRadarData, failedOrEmpty] using (hV m2 m3 M k).2.2
      · simp [getLatestRadarData, failedOrEmpty]
  · intro l h1 h2
    subst h1
    have hl : 0 < l.length := List.length_pos.mpr h2
    simp [getLatestRadarData, hl]

/-- Witness for C4: a concrete non-empty primary payload short-circuits. -/
theorem pipeline_short_circuit_witness :
    getLatestRadarData (Except.ok [p1]) (Except.error "down") (Except.error "down")
      M0 0 = ⟨[p1], false, false, false⟩ :=
  (pipeline_short_circuit (Except.ok [p1]) (Except.error "down")
    (Except.error "down") M0 0).2.2.2 [p1] rfl (List.cons_ne_nil _ _)

/-- C5 (amended): when all three fetch strategies throw, the pipeline
returns the per-station synthetic data without propagating any
exception: a non-empty list of 50 to 240 points, every one tagged with a
`station` id and carrying no `source` field at all (in particular not
`source: synthetic`). -/
theorem total_fallback_amended (e1 e2 e3 : String) (M : JsMath) (k : ℕ)
    (hM : validM M) :
    (getLatestRadarData (Except.error e1) (Except.error e2) (Except.error e3)
        M k).points = (getEnhancedMockData M k).1 ∧
    (getLatestRadarData (Except.error e1) (Except.error e2) (Except.error e3)
        M k).usedSynthetic = true ∧
    50 ≤ (getEnhancedMockData M k).1.length ∧
    (getEnhancedMockData M k).1.length ≤ 240 ∧
    (getEnhancedMockData M k).1 ≠ [] ∧
    ∀ p ∈ (getEnhancedMockData M k).1, p.source = none ∧ p.station ≠ none := by
  have hml := mockLoop_length M hM getRadarStations k
  have h50 : 50 ≤ (getEnhancedMockData M k).1.length := by
    have h := hml.1
    simpa [getEnhancedMockData, getRadarStations] using h
  refine ⟨by simp [getLatestRadarData, pipelineFromViewer, pipelineFromNWS],
    by simp [getLatestRadarData, pipelineFromViewer, pipelineFromNWS], h50, ?_, ?_, ?_⟩
  · have h := hml.2
    simpa [getEnhancedMockData, getRadarStations] using h
  · intro hnil
    rw [hnil] at h50
    simp at h50
  · exact mockLoop_tags M getRadarStations k

/-- Witness for C5 at the concrete oracle bundle `M0`. -/
theorem total_fallback_amended_witness :
    (getLatestRadarData (Except.error "a") (Except.error "b") (Except.error "c")
        M0 0).points = (getEnhancedMockData M0 0).1 ∧
    50 ≤ (getEnhancedMockData M0 0).1.length := by
  have h := total_fallback_amended "a" "b" "c" M0 0 validM_M0
  exact ⟨h.1, h.2.2.1⟩

/-- C5 counterexample: with all strategies throwing, the returned points
are non-empty but none of them carries a `source: synthetic` tag (the
mock points have no `source` field at all). -/
theorem total_fallback_counterexample :
    (getLatestRadarData (Except.error "a") (Except.error "b") (Except.error "c")
        M0 0).points ≠ [] ∧
    ((getLatestRadarData (Except.error "a") (Except.error "b") (Except.error "c")
        M0 0).points).all (fun p => decide (p.source ≠ some "synthetic")) = true := by
  have hpts : (getLatestRadarData (Except.error "a") (Except.error "b")
      (Except.error "c") M0 0).points = (getEnhancedMockData M0 0).1 := by
    simp [getLatestRadarData, pipelineFromViewer, pipelineFromNWS]
  constructor
  · rw [hpts]
    have h := (mockLoop_length M0 validM_M0 getRadarStations 0).1
    intro hnil
    rw [show mockLoop M0 getRadarStations 0 = getEnhancedMockData M0 0 from rfl,
      hnil] at h
    simp [getRadarStations] at h
  · rw [hpts, List.all_eq_true]
    intro p hp
    have h := mockLoop_tags M0 getRadarStations 0 p hp
    simp [h.1]

theorem clamp_facts (v : JsNum) (hnan : v.isNaN = false)
    (hneg : v.lt (JsNum.val 0) = false) :
    ∃ q : ℚ, JsNum.jmax (.val 0) (JsNum.jmin (.val 70) (v.mulC 10)) = JsNum.val q ∧
      0 ≤ q ∧ q ≤ 70 := by
  rcases v with _ | _ | _ | q
  · simp [JsNum.isNaN] at hnan
  · exact ⟨max 0 70, rfl, le_max_left _ _, max_le (by norm_num) le_rfl⟩
  · simp [JsNum.lt] at hneg
  · exact ⟨max 0 (min 70 (q * 10)), rfl, le_max_left _ _,
      max_le (by norm_num) (min_le_left _ _)⟩

/-- C8 (amended): every decoded point stems from a sampled index whose
original value was neither null/undefined nor NaN nor negative; its
reflectivity is never NaN, never -Infinity, and never compares below 0;
for fields not named like reflectivity (no BREF/REFL) the reflectivity is
the scaled clamp, hence finite in [0, 70]; for BREF/REFL fields the value
(and always the latitude/longitude) passes through unchecked, so those
are finite only when the corresponding inputs are. -/
theorem decoder_point_validity (fieldData : FieldData) (fieldName : String)
    (p : RadarPoint) (hp : p ∈ convertGRIB2ToRadarPoints fieldData fieldName) :
    p.reflectivity ≠ JsNum.nan ∧ p.reflectivity ≠ JsNum.negInf ∧
    p.reflectivity.lt (JsNum.val 0) = false ∧
    ((strContains fieldName "BREF" || strContains fieldName "REFL") = false →
      ∃ q : ℚ, p.reflectivity = JsNum.val q ∧ 0 ≤ q ∧ q ≤ 70) ∧
    ∃ i v, fieldData.values.getD i none = some v ∧ v.isNaN = false ∧
      v.lt (JsNum.val 0) = false ∧ p.lat = fieldData.latitudes.getD i none ∧
      p.lon = fieldData.longitudes.getD i none ∧
      ((strContains fieldName "BREF" || strContains fieldName "REFL") = true →
        p.reflectivity = v) := by
  rw [convertGRIB2_eq_filterMap] at hp
  obtain ⟨i, _hi, hsome⟩ := List.mem_filterMap.mp hp
  simp only [mkSample] at hsome
  rcases hv : fieldData.values.getD i none with _ | v <;> rw [hv] at hsome
  · simp at hsome
  dsimp only at hsome
  by_cases hbad : (v.isNaN || v.lt (JsNum.val 0)) = true
  · rw [if_pos hbad] at hsome
    simp at hsome
  rw [if_neg hbad] at hsome
  simp only [Bool.or_eq_true, not_or, Bool.not_eq_true] at hbad
  obtain ⟨hnan, hneg⟩ := hbad
  rw [Option.some.injEq] at hsome
  subst hsome
  dsimp only
  by_cases hb : (strContains fieldName "BREF" || strContains fieldName "REFL") = true
  · rw [if_pos hb]
    refine ⟨?_, ?_, hneg, ?_, i, v, hv, hnan, hneg, rfl, rfl, fun _ => rfl⟩
    · rcases v with _ | _ | _ | q <;> simp_all [JsNum.isNaN]
    · rcases v with _ | _ | _ | q <;> simp_all [JsNum.lt]
    · intro h
      rw [h] at hb
      simp at hb
  · rw [if_neg hb]
    obtain ⟨q, hq, hq0, hq70⟩ := clamp_facts v hnan hneg
    rw [hq]
    refine ⟨by simp, by simp, ?_, fun _ => ⟨q, rfl, hq0, hq70⟩,
      i, v, hv, hnan, hneg, rfl, rfl, fun hcontra => absurd hcontra hb⟩
    simp only [JsNum.lt, decide_eq_false_iff_not]
    linarith

/-- Witness for C8 at the first decoded point of the scenario field. -/
theorem decoder_point_validity_witness :
    samplePointGrib.reflectivity ≠ JsNum.nan ∧
    samplePointGrib.reflectivity.lt (JsNum.val 0) = false := by
  have h := decoder_point_validity fdScenario "BREF_1HR_MAX" samplePointGrib
    (by rw [convertGRIB2_eq_filterMap]; decide)
  exact ⟨h.1, h.2.2.1⟩

/-- C8 counterexample: a +Infinity input value passes the decoder's
validity test of a BREF field and is emitted as a non-finite
reflectivity, and a NaN latitude passes through onto the emitted point —
refuting the claim that every emitted latitude/longitude/reflectivity is
finite. -/
theorem decoder_nonfinite_counterexample :
    (convertGRIB2ToRadarPoints fdNonFinite "BREF_1HR_MAX").map
        (fun p => (p.reflectivity, p.lat)) =
      [(JsNum.posInf, some (JsNum.val 30)), (JsNum.val 30, some JsNum.nan)] := by
  rw [convertGRIB2_eq_filterMap]
  decide

end RadarScraper

end Radar
